import Mathlib

set_option maxHeartbeats 1000000

/-!
Shallow embedding of the consensia news agent query layer
(src/consensia_agent/tools.py): keyword extraction, date window
computation, HTTP parameter building, result normalization and the
fallback ladder of both provider variants, together with theorems
checking the specification claims about them.

The network is modelled by an oracle mapping each issued request to its
outcome.  Each search function returns, next to its result, the ordered
list of HTTP requests it issued, so claims about request counts and
fallback requests can be stated directly.
-/

namespace Consensia

/-- ASCII whitespace recognized by the Python str.split and str.strip defaults. -/
def pyIsSpace (c : Char) : Bool :=
  c == ' ' || c == '\t' || c == '\n' || c == '\r' || c == '\x0b' || c == '\x0c'

/-- Embedding of Python str.strip on a character list. -/
def pyStripL (l : List Char) : List Char :=
  ((l.dropWhile pyIsSpace).reverse.dropWhile pyIsSpace).reverse

/-- Tokenizer behind the embedding of Python str.split with no separator
    argument: splits on whitespace runs and produces no empty words.  The
    accumulator holds the current word reversed. -/
def wordsAux : List Char → List Char → List (List Char)
  | [], acc => if acc = [] then [] else [acc.reverse]
  | c :: cs, acc =>
    if pyIsSpace c then (if acc = [] then wordsAux cs [] else acc.reverse :: wordsAux cs [])
    else wordsAux cs (c :: acc)

/-- Whitespace tokenization of a character list. -/
def pySplitL (l : List Char) : List (List Char) := wordsAux l []

/-- Embedding of Python str.split with no separator argument. -/
def pySplit (s : String) : List String := (pySplitL s.toList).map (fun w => ⟨w⟩)

/-- Embedding of Python str.lower, restricted to ASCII letters. -/
def pyLowerStr (s : String) : String := ⟨s.toList.map Char.toLower⟩

/-- Embedding of the Python space join of a word list. -/
def joinWords : List String → String
  | [] => ""
  | [w] => w
  | w :: ws => w ++ " " ++ joinWords ws

/-- Stop word list of extract_keywords (tools.py lines 204 to 206). -/
def stopWords : List String :=
  ["a", "an", "the", "and", "or", "but", "is", "are", "was", "were",
   "in", "on", "at", "to", "for", "with", "by", "about", "like",
   "from", "of", "gets", "got", "get"]

/-- Embedding of extract_keywords (tools.py lines 184 to 219). -/
def extractKeywords (topic : String) : String :=
  if (pySplit topic).length ≤ 3 then topic
  else
    let words := pySplit (pyLowerStr topic)
    let keywords := words.filter (fun w => ! stopWords.contains w)
    if keywords ≠ [] then joinWords keywords else topic

/-- A calendar date as handled by Python datetime (years 1 to 9999). -/
structure Date where
  year : Nat
  month : Nat
  day : Nat
deriving DecidableEq, Repr

/-- Gregorian leap year rule used by Python datetime. -/
def isLeap (y : Nat) : Bool :=
  (y % 4 == 0 && y % 100 != 0) || y % 400 == 0

/-- Month lengths of the Gregorian calendar. -/
def daysInMonth (y m : Nat) : Nat :=
  if m == 2 then (if isLeap y then 29 else 28)
  else if m == 4 || m == 6 || m == 9 || m == 11 then 30
  else 31

/-- Validity check matching the Python datetime constructor. -/
def validDate (d : Date) : Bool :=
  decide (1 ≤ d.year) && decide (d.year ≤ 9999) &&
  decide (1 ≤ d.month) && decide (d.month ≤ 12) &&
  decide (1 ≤ d.day) && decide (d.day ≤ daysInMonth d.year d.month)

/-- Observable behavior of Python datetime minus timedelta(days=1): the
    calendar predecessor, or none when the result leaves the supported
    range, where Python raises OverflowError. -/
def predDay (d : Date) : Option Date :=
  if 2 ≤ d.day then some ⟨d.year, d.month, d.day - 1⟩
  else if 2 ≤ d.month then some ⟨d.year, d.month - 1, daysInMonth d.year (d.month - 1)⟩
  else if 2 ≤ d.year then some ⟨d.year - 1, 12, 31⟩
  else none

/-- Observable behavior of Python datetime plus timedelta(days=1): the
    calendar successor, or none when the result leaves the supported
    range, where Python raises OverflowError. -/
def succDay (d : Date) : Option Date :=
  if d.day < daysInMonth d.year d.month then some ⟨d.year, d.month, d.day + 1⟩
  else if d.month < 12 then some ⟨d.year, d.month + 1, 1⟩
  else if d.year < 9999 then some ⟨d.year + 1, 1, 1⟩
  else none

/-- Length of a Gregorian year. -/
def daysInYear (y : Nat) : Nat := if isLeap y then 366 else 365

/-- Day count of all years strictly before year y, up to a constant offset. -/
def daysBeforeYear : Nat → Nat
  | 0 => 0
  | y + 1 => daysBeforeYear y + daysInYear y

/-- Day count of the months of year y strictly before month m. -/
def daysBeforeMonth (y : Nat) : Nat → Nat
  | 0 => 0
  | m + 1 => daysBeforeMonth y m + (if m = 0 then 0 else daysInMonth y m)

/-- Linear day number of a date: consecutive calendar days map to
    consecutive numbers. -/
def dateOrd (d : Date) : Nat :=
  daysBeforeYear d.year + daysBeforeMonth d.year d.month + d.day

/-- Numeric value of an ASCII digit character. -/
def dval (c : Char) : Nat := c.toNat - 48

/-- ASCII digit character of a value below 10. -/
def dChar (n : Nat) : Char := Char.ofNat (48 + n)

/-- Two digit zero padded rendering. -/
def digits2 (n : Nat) : List Char := [dChar (n / 10), dChar (n % 10)]

/-- Four digit zero padded rendering. -/
def digits4 (n : Nat) : List Char :=
  [dChar (n / 1000), dChar (n / 100 % 10), dChar (n / 10 % 10), dChar (n % 10)]

/-- Canonical YYYY-MM-DD rendering of a date, zero padded. -/
def formatChars (d : Date) : List Char :=
  digits4 d.year ++ '-' :: (digits2 d.month ++ '-' :: digits2 d.day)

/-- Canonical YYYY-MM-DD rendering as a string. -/
def formatDate (d : Date) : String := ⟨formatChars d⟩

/-- Month field match of Python strptime, regex 1[0-2]|0[1-9]|[1-9]:
    returns the month and the unconsumed characters. -/
def parseMonthNum (l : List Char) : Option (Nat × List Char) :=
  match l with
  | c1 :: c2 :: rest2 =>
    if c1 = '1' ∧ (c2 = '0' ∨ c2 = '1' ∨ c2 = '2') then some (10 + dval c2, rest2)
    else if c1 = '0' then
      (if c2.isDigit ∧ c2 ≠ '0' then some (dval c2, rest2) else none)
    else if c1.isDigit ∧ c1 ≠ '0' then some (dval c1, c2 :: rest2)
    else none
  | [c1] => if c1.isDigit ∧ c1 ≠ '0' then some (dval c1, []) else none
  | [] => none

/-- Day field match of Python strptime, regex 3[01]|[12]0-9|0[1-9]|[1-9]:
    returns the day and the unconsumed characters. -/
def parseDayNum (l : List Char) : Option (Nat × List Char) :=
  match l with
  | c1 :: c2 :: rest2 =>
    if c1 = '3' ∧ (c2 = '0' ∨ c2 = '1') then some (30 + dval c2, rest2)
    else if (c1 = '1' ∨ c1 = '2') ∧ c2.isDigit then some (dval c1 * 10 + dval c2, rest2)
    else if c1 = '0' then
      (if c2.isDigit ∧ c2 ≠ '0' then some (dval c2, rest2) else none)
    else if c1.isDigit ∧ c1 ≠ '0' then some (dval c1, c2 :: rest2)
    else none
  | [c1] => if c1.isDigit ∧ c1 ≠ '0' then some (dval c1, []) else none
  | [] => none

/-- Embedding of datetime.strptime with format string of year dash month
    dash day: a full match of four year digits, the month and day fields,
    then the constructor validity check on the day. -/
def parseYMD (l : List Char) : Option Date :=
  match l with
  | c1 :: c2 :: c3 :: c4 :: c5 :: rest =>
    if c1.isDigit ∧ c2.isDigit ∧ c3.isDigit ∧ c4.isDigit ∧ c5 = '-' then
      match parseMonthNum rest with
      | some (m, rest2) =>
        match rest2 with
        | c :: rest3 =>
          if c = '-' then
            match parseDayNum rest3 with
            | some (d, rest4) =>
              if rest4 = [] then
                let y := dval c1 * 1000 + dval c2 * 100 + dval c3 * 10 + dval c4
                if 1 ≤ y ∧ d ≤ daysInMonth y m then some ⟨y, m, d⟩ else none
              else none
            | none => none
          else none
        | [] => none
      | none => none
    else none
  | _ => none

/-- Outcome of the date handling block shared by both providers: no filter
    attached, a window attached, or an uncaught OverflowError raised by the
    window arithmetic (escapes to the outermost handler in the source). -/
inductive DateFilter where
  | noFilter
  | window (fromD toD : Date)
  | rangeError (msg : String)
deriving DecidableEq, Repr

/-- True exactly on the rangeError variant. -/
def DateFilter.isRangeErr : DateFilter → Bool
  | .rangeError _ => true
  | _ => false

/-- Embedding of the date handling block (tools.py lines 57 to 75 and 276
    to 295): guard on a nonblank date, guard on length and a dash, take
    the part before the first T, strptime, then one day on either side. -/
def dateFilterOfChars (l : List Char) : DateFilter :=
  if l ≠ [] ∧ pyStripL l ≠ [] then
    if 10 ≤ l.length ∧ l.contains '-' then
      match parseYMD (l.takeWhile (fun c => c != 'T')) with
      | some d =>
        match predDay d, succDay d with
        | some f, some t => .window f t
        | _, _ => .rangeError "date value out of range"
      | none => .noFilter
    else .noFilter
  else .noFilter

/-- Date filter computed from the date string argument. -/
def computeDateFilter (date : String) : DateFilter :=
  dateFilterOfChars date.toList

/-- One article object of a provider JSON response; absent fields are none. -/
structure Article where
  sourceName : Option String := none
  title : Option String := none
  description : Option String := none
  content : Option String := none
  url : Option String := none
  publishedAt : Option String := none
  image : Option String := none
deriving DecidableEq, Repr

/-- One normalized story record of a success result.  The image field is
    populated only by the GNews variant. -/
structure Story where
  headline : String
  source : String
  description : String
  content : String
  url : String
  publishedAt : String
  image : Option String
deriving DecidableEq, Repr

/-- Normalization of one article (loop bodies at tools.py lines 88 to 106
    and 308 to 328): an article with an empty or missing title yields no
    story. -/
def storyOfArticle (withImage : Bool) (a : Article) : Option Story :=
  if a.title.getD "" ≠ "" then
    some { headline := a.title.getD ""
         , source := a.sourceName.getD "Unknown source"
         , description := a.description.getD ""
         , content := a.content.getD ""
         , url := a.url.getD ""
         , publishedAt := a.publishedAt.getD ""
         , image := if withImage then some (a.image.getD "") else none }
  else none

/-- Story list built by the NewsAPI loops. -/
def buildStoriesN (arts : List Article) : List Story :=
  arts.filterMap (storyOfArticle false)

/-- Story list built by the GNews loops. -/
def buildStoriesG (arts : List Article) : List Story :=
  arts.filterMap (storyOfArticle true)

/-- The result union returned by both search functions. -/
inductive SearchResult where
  | success (stories : List Story) (note : Option String)
  | error (errorMessage : String)
deriving DecidableEq, Repr

/-- True exactly on the error variant. -/
def SearchResult.isErr : SearchResult → Bool
  | .success _ _ => false
  | .error _ => true

/-- Outcome of one requests.get call: a raised exception (timeout and the
    like), or an HTTP response whose body either parses as JSON or fails
    to, carrying the decode error text in the failure case. -/
inductive HttpOutcome (β : Type) where
  | exception (msg : String)
  | response (status : Nat) (body : Except String β)

/-- Parsed JSON body of a NewsAPI response; absent fields are none. -/
structure NewsApiBody where
  status : Option String := none
  totalResults : Option Nat := none
  articles : Option (List Article) := none
  message : Option String := none

/-- Query parameters of one NewsAPI request (tools.py lines 45 to 72).
    The date window is carried as parsed dates and sent zero padded. -/
structure NewsParams where
  q : String
  apiKey : String
  language : String
  sortBy : String
  pageSize : Nat
  dateFrom : Option Date
  dateTo : Option Date
deriving DecidableEq, Repr

/-- Configuration error message of the NewsAPI variant. -/
def cfgMsgNews : String := "NewsAPI key not found in environment variables."

/-- Configuration error message of the GNews variant. -/
def cfgMsgGNews : String :=
  "GNews API key not found in environment variables. Please set the GNEWS_API_KEY environment variable."

/-- Advisory note attached when the widened fallback search succeeds. -/
def expandNote : String :=
  "Results found by expanding the search beyond the specified date."

/-- The no-results error message shared by both variants (tools.py lines
    158 to 162 and 380 to 384). -/
def noArticlesMsg (topic date : String) : String :=
  "No news articles found for topic '" ++ topic ++ "'" ++
    (if date ≠ "" ∧ pyStripL date.toList ≠ [] then " on or around " ++ date else "") ++
    ". Try using more specific keywords or a different date range."

/-- Search query choice (tools.py lines 41 to 42). -/
def newsQuery (topic : String) : String :=
  if extractKeywords topic ≠ "" then extractKeywords topic else topic

/-- Initial NewsAPI parameters before the date window is attached. -/
def baseNewsParams (k topic : String) : NewsParams :=
  { q := newsQuery topic, apiKey := k, language := "en", sortBy := "relevancy"
  , pageSize := 10, dateFrom := none, dateTo := none }

/-- Attach a computed window to NewsAPI parameters. -/
def applyFilterN (p : NewsParams) : DateFilter → NewsParams
  | .window f t => { p with dateFrom := some f, dateTo := some t }
  | _ => p

/-- The primary NewsAPI request of a call with the given key, date and topic. -/
def newsParamsFor (k date topic : String) : NewsParams :=
  applyFilterN (baseNewsParams k topic) (computeDateFilter date)

/-- Fallback request processing of get_related_news (tools.py lines 124 to
    155) given the already built fallback parameters.  The none case of the
    articles field models the KeyError raised by the unguarded articles
    lookup at line 131, caught by the outermost handler. -/
def newsFallbackRun (oracle : NewsParams → HttpOutcome NewsApiBody)
    (fb : NewsParams) (topic date : String) : SearchResult :=
  match oracle fb with
  | .exception e => .error ("Error fetching news: " ++ e)
  | .response s body =>
    if s = 200 then
      match body with
      | .error e => .error ("Error fetching news: " ++ e)
      | .ok fdata =>
        if fdata.status.getD "" = "ok" ∧ 0 < fdata.totalResults.getD 0 then
          match fdata.articles with
          | none => .error ("Error fetching news: 'articles'")
          | some arts =>
            if buildStoriesN arts ≠ [] then .success (buildStoriesN arts) (some expandNote)
            else .error (noArticlesMsg topic date)
        else .error (noArticlesMsg topic date)
    else .error (noArticlesMsg topic date)

/-- Processing of a 200 NewsAPI response (tools.py lines 82 to 162).
    Returns the result and the fallback requests issued.  Note the sort
    key switch at line 117 happens before the fallback copy, and the
    fallback request itself is only issued when a date window was present. -/
def newsProcess200 (oracle : NewsParams → HttpOutcome NewsApiBody)
    (p : NewsParams) (data : NewsApiBody) (topic date : String) :
    SearchResult × List NewsParams :=
  if data.status.getD "" = "ok" ∧ 0 < data.totalResults.getD 0 ∧
      data.articles.getD [] ≠ [] ∧ buildStoriesN (data.articles.getD []) ≠ [] then
    (.success (buildStoriesN (data.articles.getD [])) none, [])
  else if data.status.getD "" = "ok" ∧ data.totalResults.getD 0 = 0 then
    if p.dateFrom.isSome ∧ p.dateTo.isSome then
      (newsFallbackRun oracle { p with sortBy := "popularity", dateFrom := none, dateTo := none } topic date,
       [{ p with sortBy := "popularity", dateFrom := none, dateTo := none }])
    else (.error (noArticlesMsg topic date), [])
  else (.error (noArticlesMsg topic date), [])

/-- Response dispatch of get_related_news (tools.py lines 78 to 182). -/
def newsRun (oracle : NewsParams → HttpOutcome NewsApiBody)
    (p : NewsParams) (topic date : String) : SearchResult × List NewsParams :=
  match oracle p with
  | .exception e => (.error ("Error fetching news: " ++ e), [p])
  | .response s body =>
    if s = 200 then
      match body with
      | .error e => (.error ("Error fetching news: " ++ e), [p])
      | .ok data =>
        ((newsProcess200 oracle p data topic date).1,
          p :: (newsProcess200 oracle p data topic date).2)
    else
      match body with
      | .ok data => (.error ("NewsAPI error: " ++ data.message.getD "Unknown error"), [p])
      | .error _ => (.error ("NewsAPI error: HTTP error " ++ toString s), [p])

/-- Embedding of get_related_news (tools.py lines 6 to 182).  The oracle
    stands for the network; the second component lists every HTTP request
    issued, in order. -/
def searchNewsAPI (apiKey : Option String)
    (oracle : NewsParams → HttpOutcome NewsApiBody)
    (date topic : String) : SearchResult × List NewsParams :=
  if apiKey.getD "" = "" then (.error cfgMsgNews, [])
  else
    match computeDateFilter date with
    | .rangeError msg => (.error ("Error fetching news: " ++ msg), [])
    | _ => newsRun oracle (newsParamsFor (apiKey.getD "") date topic) topic date

/-- Query parameters of one GNews request (tools.py lines 264 to 292).
    The date window is carried as parsed dates; the source sends them with
    fixed day start and day end time components. -/
structure GNewsParams where
  q : String
  token : String
  lang : String
  maxResults : Nat
  expand : String
  dateFrom : Option Date
  dateTo : Option Date
deriving DecidableEq, Repr

/-- Parsed JSON body of a GNews response.  raw models the Python str
    rendering of the payload, used by the substring checks of the error
    branch. -/
structure GNewsBody where
  articles : Option (List Article) := none
  gerrors : Option (List String) := none
  raw : String := ""

/-- True when the first string occurs contiguously inside the second. -/
def matchesFront : List Char → List Char → Bool
  | [], _ => true
  | _ :: _, [] => false
  | p :: ps, x :: xs => p == x && matchesFront ps xs

/-- Embedding of the Python substring test. -/
def hasSubL (pat : List Char) : List Char → Bool
  | [] => matchesFront pat []
  | x :: xs => matchesFront pat (x :: xs) || hasSubL pat xs

/-- Embedding of the Python substring test on strings. -/
def pyInStr (pat s : String) : Bool := hasSubL pat.toList s.toList

/-- Initial GNews parameters before the date window is attached. -/
def baseGNewsParams (k topic : String) : GNewsParams :=
  { q := newsQuery topic, token := k, lang := "en", maxResults := 10
  , expand := "content", dateFrom := none, dateTo := none }

/-- Attach a computed window to GNews parameters. -/
def applyFilterG (p : GNewsParams) : DateFilter → GNewsParams
  | .window f t => { p with dateFrom := some f, dateTo := some t }
  | _ => p

/-- The primary GNews request of a call with the given key, date and topic. -/
def gnewsParamsFor (k date topic : String) : GNewsParams :=
  applyFilterG (baseGNewsParams k topic) (computeDateFilter date)

/-- Error branch of a non-200 GNews response (tools.py lines 386 to 415).
    An errors field holding an empty list raises IndexError at line 390,
    which the inner handler converts before the substring checks run. -/
def gnewsNon200Result (s : Nat) (body : Except String GNewsBody) : SearchResult :=
  match body with
  | .error e =>
    .error ("GNews API error: HTTP error " ++ toString s ++ ": " ++ e ++
      " (Status code: " ++ toString s ++ ")")
  | .ok data =>
    match data.gerrors with
    | some [] =>
      .error ("GNews API error: HTTP error " ++ toString s ++
        ": list index out of range (Status code: " ++ toString s ++ ")")
    | ge =>
      if pyInStr "Daily limit" data.raw then
        .error "GNews API daily request limit exceeded. Please try again tomorrow."
      else if pyInStr "Invalid API key" data.raw ∨ pyInStr "apiKey is not valid" data.raw then
        .error "Invalid GNews API key. Please check your API key configuration."
      else
        .error ("GNews API error: " ++
          (match ge with | some (e :: _) => e | _ => "Unknown error") ++
          " (Status code: " ++ toString s ++ ")")

/-- Fallback request processing of get_related_news_gnews (tools.py lines
    340 to 377) given the already built fallback parameters. -/
def gnewsFallbackRun (oracle : GNewsParams → HttpOutcome GNewsBody)
    (fb : GNewsParams) (topic date : String) : SearchResult :=
  match oracle fb with
  | .exception e => .error ("Error fetching news: " ++ e)
  | .response s body =>
    if s = 200 then
      match body with
      | .error e => .error ("Error fetching news: " ++ e)
      | .ok fdata =>
        if fdata.articles.getD [] ≠ [] ∧ buildStoriesG (fdata.articles.getD []) ≠ [] then
          .success (buildStoriesG (fdata.articles.getD [])) (some expandNote)
        else .error (noArticlesMsg topic date)
    else .error (noArticlesMsg topic date)

/-- Processing of a 200 GNews response (tools.py lines 302 to 384).
    The fallback request is identical to the primary one with only the
    date window removed, and is issued only when a window was present. -/
def gnewsProcess200 (oracle : GNewsParams → HttpOutcome GNewsBody)
    (p : GNewsParams) (data : GNewsBody) (topic date : String) :
    SearchResult × List GNewsParams :=
  if data.articles.getD [] ≠ [] ∧ buildStoriesG (data.articles.getD []) ≠ [] then
    (.success (buildStoriesG (data.articles.getD [])) none, [])
  else if data.articles.getD [] = [] then
    if p.dateFrom.isSome ∧ p.dateTo.isSome then
      (gnewsFallbackRun oracle { p with dateFrom := none, dateTo := none } topic date,
       [{ p with dateFrom := none, dateTo := none }])
    else (.error (noArticlesMsg topic date), [])
  else (.error (noArticlesMsg topic date), [])

/-- Response dispatch of get_related_news_gnews (tools.py lines 298 to 422). -/
def gnewsRun (oracle : GNewsParams → HttpOutcome GNewsBody)
    (p : GNewsParams) (topic date : String) : SearchResult × List GNewsParams :=
  match oracle p with
  | .exception e => (.error ("Error fetching news: " ++ e), [p])
  | .response s body =>
    if s = 200 then
      match body with
      | .error e => (.error ("Error fetching news: " ++ e), [p])
      | .ok data =>
        ((gnewsProcess200 oracle p data topic date).1,
          p :: (gnewsProcess200 oracle p data topic date).2)
    else (gnewsNon200Result s body, [p])

/-- Embedding of get_related_news_gnews (tools.py lines 221 to 422). -/
def searchGNews (apiKey : Option String)
    (oracle : GNewsParams → HttpOutcome GNewsBody)
    (date topic : String) : SearchResult × List GNewsParams :=
  if apiKey.getD "" = "" then (.error cfgMsgGNews, [])
  else
    match computeDateFilter date with
    | .rangeError msg => (.error ("Error fetching news: " ++ msg), [])
    | _ => gnewsRun oracle (gnewsParamsFor (apiKey.getD "") date topic) topic date

/-- Results with the same shape: identical stories and note on success,
    matching error constructors with any message text. -/
def sameOutcome : SearchResult → SearchResult → Prop
  | .success s n, .success s2 n2 => s = s2 ∧ n = n2
  | .error _, .error _ => True
  | _, _ => False

/-! ### Concrete data used by witness and counterexample runs -/

/-- A concrete titled article. -/
def artAlpha : Article := { title := some "Alpha wins", sourceName := some "Wire" }

/-- A concrete article carrying no title. -/
def artUntitled : Article := { description := some "no title present" }

/-- NewsAPI body carrying one usable article. -/
def bodyOkOne : NewsApiBody :=
  { status := some "ok", totalResults := some 1, articles := some [artAlpha] }

/-- NewsAPI body reporting zero results. -/
def bodyZero : NewsApiBody :=
  { status := some "ok", totalResults := some 0, articles := some [] }

/-- NewsAPI body reporting two results whose titles are all missing. -/
def bodyEmptyTitles : NewsApiBody :=
  { status := some "ok", totalResults := some 2, articles := some [artUntitled, artUntitled] }

/-- NewsAPI error body used for the rate limit scenario. -/
def bodyLimited : NewsApiBody := { message := some "rate limited" }

/-- NewsAPI oracle answering every request with the given body at status 200. -/
def oracleConst (b : NewsApiBody) : NewsParams → HttpOutcome NewsApiBody :=
  fun _ => .response 200 (.ok b)

/-- NewsAPI oracle answering zero results when a date window is attached and
    one usable article otherwise. -/
def oracleWiden : NewsParams → HttpOutcome NewsApiBody :=
  fun p => if p.dateFrom.isSome then .response 200 (.ok bodyZero)
           else .response 200 (.ok bodyOkOne)

/-- NewsAPI oracle answering status 429 with the given body for every request. -/
def oracle429 (b : NewsApiBody) : NewsParams → HttpOutcome NewsApiBody :=
  fun _ => .response 429 (.ok b)

/-- GNews body carrying one usable article. -/
def gbodyOne : GNewsBody := { articles := some [artAlpha] }

/-- GNews body carrying no articles. -/
def gbodyZero : GNewsBody := { articles := some [] }

/-- GNews oracle answering no articles when a date window is attached and one
    usable article otherwise. -/
def goracleWiden : GNewsParams → HttpOutcome GNewsBody :=
  fun p => if p.dateFrom.isSome then .response 200 (.ok gbodyZero)
           else .response 200 (.ok gbodyOne)

/-- GNews oracle answering every request with the given body at status 200. -/
def goracleConst (b : GNewsBody) : GNewsParams → HttpOutcome GNewsBody :=
  fun _ => .response 200 (.ok b)

/-- GNews oracle answering status 429 with an unparseable body. -/
def goracle429 : GNewsParams → HttpOutcome GNewsBody :=
  fun _ => .response 429 (.error "Expecting value")

/-! ### Helper lemmas about strings and the tokenizer -/

theorem strOfLengthPos (s : String) (h : 0 < s.length) : s ≠ "" := by
  intro hc; rw [hc] at h; exact absurd h (by decide)

theorem strOfNeNil (l : List Char) (h : l ≠ []) : (⟨l⟩ : String) ≠ "" := by
  intro hc
  exact h (congrArg String.data hc)

theorem wordsAux_ne_nil (l : List Char) : ∀ acc, ∀ w ∈ wordsAux l acc, w ≠ [] := by
  induction l with
  | nil =>
    intro acc w hw
    unfold wordsAux at hw
    split at hw
    · cases hw
    · next hacc =>
      rw [List.mem_singleton] at hw
      subst hw
      intro hn
      exact hacc (by simpa using congrArg List.reverse hn)
  | cons c cs ih =>
    intro acc w hw
    unfold wordsAux at hw
    split at hw
    · split at hw
      · exact ih [] w hw
      · next hacc =>
        rcases List.mem_cons.mp hw with h | h
        · subst h
          intro hn
          exact hacc (by simpa using congrArg List.reverse hn)
        · exact ih [] w h
    · exact ih (c :: acc) w hw

theorem pySplit_mem_ne (s w : String) (hw : w ∈ pySplit s) : w ≠ "" := by
  unfold pySplit pySplitL at hw
  rcases List.mem_map.mp hw with ⟨wl, hwl, rfl⟩
  exact strOfNeNil wl (wordsAux_ne_nil _ [] wl hwl)

theorem joinWords_cons_ne (w : String) (ws : List String) (hw : w ≠ "") :
    joinWords (w :: ws) ≠ "" := by
  cases ws with
  | nil => simpa [joinWords] using hw
  | cons x xs =>
    apply strOfLengthPos
    show 0 < (w ++ " " ++ joinWords (x :: xs)).length
    rw [String.length_append, String.length_append]
    have hw0 : 0 < w.length := by
      rcases w with ⟨l⟩
      cases l with
      | nil => exact absurd rfl hw
      | cons a as => simp [String.length]
    omega

/-! ### Claim C8 -/

/-- C8: a topic of at most 3 whitespace separated tokens is returned
    unchanged by the keyword extractor. -/
theorem extractKeywords_short_id (topic : String)
    (h : (pySplit topic).length ≤ 3) : extractKeywords topic = topic := by
  unfold extractKeywords
  rw [if_pos h]

/-- Witness for extractKeywords_short_id at a concrete two token topic. -/
theorem extractKeywords_short_id_witness :
    extractKeywords "Boeing grounding" = "Boeing grounding" :=
  extractKeywords_short_id "Boeing grounding" (by decide)

/-! ### Claim C7 -/

/-- C7: for topics of more than 3 tokens the extractor returns the lowered
    tokens with stop words removed, rejoined by single spaces; if the
    filtering removes every token the original topic is returned, and the
    result is never the empty string. -/
theorem extractKeywords_long_filtered (topic : String)
    (h : 3 < (pySplit topic).length) :
    ((pySplit (pyLowerStr topic)).filter (fun w => ! stopWords.contains w) ≠ [] →
      extractKeywords topic =
        joinWords ((pySplit (pyLowerStr topic)).filter (fun w => ! stopWords.contains w))) ∧
    ((pySplit (pyLowerStr topic)).filter (fun w => ! stopWords.contains w) = [] →
      extractKeywords topic = topic) ∧
    extractKeywords topic ≠ "" := by
  have hng : ¬ (pySplit topic).length ≤ 3 := by omega
  have htop : topic ≠ "" := by
    intro hc; subst hc; exact hng (by decide)
  have hkey : extractKeywords topic =
      if (pySplit (pyLowerStr topic)).filter (fun w => ! stopWords.contains w) ≠ [] then
        joinWords ((pySplit (pyLowerStr topic)).filter (fun w => ! stopWords.contains w))
      else topic := by
    unfold extractKeywords
    rw [if_neg hng]
  refine ⟨?_, ?_, ?_⟩
  · intro hne; rw [hkey, if_pos hne]
  · intro heq; rw [hkey, heq]; simp
  · by_cases hne : (pySplit (pyLowerStr topic)).filter (fun w => ! stopWords.contains w) = []
    · rw [hkey, hne]; simpa using htop
    · rw [hkey, if_pos hne]
      rcases hlist : (pySplit (pyLowerStr topic)).filter (fun w => ! stopWords.contains w)
        with _ | ⟨w, ws⟩
      · exact absurd hlist hne
      · have hwmem : w ∈ (pySplit (pyLowerStr topic)).filter (fun w => ! stopWords.contains w) := by
          rw [hlist]; exact List.mem_cons_self w ws
        have hws : w ∈ pySplit (pyLowerStr topic) := (List.mem_filter.mp hwmem).1
        exact joinWords_cons_ne w ws (pySplit_mem_ne _ w hws)

/-- Witness for extractKeywords_long_filtered at a concrete seven token topic. -/
theorem extractKeywords_long_filtered_witness :
    ((pySplit (pyLowerStr "the cat is on the mat today")).filter (fun w => ! stopWords.contains w) ≠ [] →
      extractKeywords "the cat is on the mat today" =
        joinWords ((pySplit (pyLowerStr "the cat is on the mat today")).filter
          (fun w => ! stopWords.contains w))) ∧
    ((pySplit (pyLowerStr "the cat is on the mat today")).filter (fun w => ! stopWords.contains w) = [] →
      extractKeywords "the cat is on the mat today" = "the cat is on the mat today") ∧
    extractKeywords "the cat is on the mat today" ≠ "" :=
  extractKeywords_long_filtered "the cat is on the mat today" (by decide)

/-! ### Claim C5 -/

/-- C5: with no credential configured both search variants fail with their
    configuration specific message and issue no HTTP request at all. -/
theorem missing_credential_no_request
    (oN : NewsParams → HttpOutcome NewsApiBody)
    (oG : GNewsParams → HttpOutcome GNewsBody) (date topic : String) :
    searchNewsAPI none oN date topic = (.error cfgMsgNews, []) ∧
    searchGNews none oG date topic = (.error cfgMsgGNews, []) :=
  ⟨rfl, rfl⟩

/-! ### Helper lemmas about story normalization and the search flows -/

theorem storyOfArticle_headline (w : Bool) (a : Article) (st : Story)
    (h : storyOfArticle w a = some st) : st.headline ≠ "" := by
  unfold storyOfArticle at h
  split at h
  · next hne => cases h; exact hne
  · cases h

theorem buildStories_headline (w : Bool) (arts : List Article) (st : Story)
    (h : st ∈ arts.filterMap (storyOfArticle w)) : st.headline ≠ "" := by
  rcases List.mem_filterMap.mp h with ⟨a, _, ha⟩
  exact storyOfArticle_headline w a st ha

theorem newsFallbackRun_headlines (o : NewsParams → HttpOutcome NewsApiBody)
    (fb : NewsParams) (topic date : String) (stories : List Story) (note : Option String)
    (h : newsFallbackRun o fb topic date = .success stories note) :
    ∀ st ∈ stories, st.headline ≠ "" := by
  unfold newsFallbackRun at h
  repeat' split at h
  any_goals exact SearchResult.noConfusion h
  rw [SearchResult.success.injEq] at h
  obtain ⟨h1, h2⟩ := h
  subst h1
  intro st hst
  exact buildStories_headline false _ st hst

theorem newsProcess200_headlines (o : NewsParams → HttpOutcome NewsApiBody)
    (p : NewsParams) (data : NewsApiBody) (topic date : String)
    (stories : List Story) (note : Option String)
    (h : (newsProcess200 o p data topic date).1 = .success stories note) :
    ∀ st ∈ stories, st.headline ≠ "" := by
  unfold newsProcess200 at h
  repeat' split at h
  all_goals try dsimp only at h
  any_goals exact SearchResult.noConfusion h
  · rw [SearchResult.success.injEq] at h
    obtain ⟨h1, h2⟩ := h
    subst h1
    intro st hst
    exact buildStories_headline false _ st hst
  · exact newsFallbackRun_headlines o _ topic date stories note h

theorem newsRun_headlines (o : NewsParams → HttpOutcome NewsApiBody)
    (p : NewsParams) (topic date : String) (stories : List Story) (note : Option String)
    (h : (newsRun o p topic date).1 = .success stories note) :
    ∀ st ∈ stories, st.headline ≠ "" := by
  unfold newsRun at h
  repeat' split at h
  all_goals try dsimp only at h
  any_goals exact SearchResult.noConfusion h
  exact newsProcess200_headlines o p _ topic date stories note h

theorem searchNewsAPI_headlines (k : Option String) (o : NewsParams → HttpOutcome NewsApiBody)
    (date topic : String) (stories : List Story) (note : Option String)
    (h : (searchNewsAPI k o date topic).1 = .success stories note) :
    ∀ st ∈ stories, st.headline ≠ "" := by
  unfold searchNewsAPI at h
  repeat' split at h
  all_goals try dsimp only at h
  any_goals exact SearchResult.noConfusion h
  exact newsRun_headlines o _ topic date stories note h

theorem gnewsFallbackRun_headlines (o : GNewsParams → HttpOutcome GNewsBody)
    (fb : GNewsParams) (topic date : String) (stories : List Story) (note : Option String)
    (h : gnewsFallbackRun o fb topic date = .success stories note) :
    ∀ st ∈ stories, st.headline ≠ "" := by
  unfold gnewsFallbackRun at h
  repeat' split at h
  any_goals exact SearchResult.noConfusion h
  rw [SearchResult.success.injEq] at h
  obtain ⟨h1, h2⟩ := h
  subst h1
  intro st hst
  exact buildStories_headline true _ st hst

theorem gnewsNon200_isErr (s : Nat) (body : Except String GNewsBody) :
    (gnewsNon200Result s body).isErr = true := by
  unfold gnewsNon200Result
  repeat' split
  all_goals rfl

theorem gnewsProcess200_headlines (o : GNewsParams → HttpOutcome GNewsBody)
    (p : GNewsParams) (data : GNewsBody) (topic date : String)
    (stories : List Story) (note : Option String)
    (h : (gnewsProcess200 o p data topic date).1 = .success stories note) :
    ∀ st ∈ stories, st.headline ≠ "" := by
  unfold gnewsProcess200 at h
  repeat' split at h
  all_goals try dsimp only at h
  any_goals exact SearchResult.noConfusion h
  · rw [SearchResult.success.injEq] at h
    obtain ⟨h1, h2⟩ := h
    subst h1
    intro st hst
    exact buildStories_headline true _ st hst
  · exact gnewsFallbackRun_headlines o _ topic date stories note h

theorem gnewsRun_headlines (o : GNewsParams → HttpOutcome GNewsBody)
    (p : GNewsParams) (topic date : String) (stories : List Story) (note : Option String)
    (h : (gnewsRun o p topic date).1 = .success stories note) :
    ∀ st ∈ stories, st.headline ≠ "" := by
  unfold gnewsRun at h
  repeat' split at h
  all_goals try dsimp only at h
  any_goals exact SearchResult.noConfusion h
  · exact gnewsProcess200_headlines o p _ topic date stories note h
  · exfalso
    have hb := congrArg SearchResult.isErr h
    rw [gnewsNon200_isErr] at hb
    exact Bool.noConfusion hb

theorem searchGNews_headlines (k : Option String) (o : GNewsParams → HttpOutcome GNewsBody)
    (date topic : String) (stories : List Story) (note : Option String)
    (h : (searchGNews k o date topic).1 = .success stories note) :
    ∀ st ∈ stories, st.headline ≠ "" := by
  unfold searchGNews at h
  repeat' split at h
  all_goals try dsimp only at h
  any_goals exact SearchResult.noConfusion h
  exact gnewsRun_headlines o _ topic date stories note h

theorem searchNewsAPI_run (k : String) (hk : k ≠ "") (o : NewsParams → HttpOutcome NewsApiBody)
    (date topic : String) (hdr : (computeDateFilter date).isRangeErr = false) :
    searchNewsAPI (some k) o date topic = newsRun o (newsParamsFor k date topic) topic date := by
  unfold searchNewsAPI
  rw [show (some k).getD "" = k from rfl, if_neg hk]
  cases hc : computeDateFilter date with
  | noFilter => rfl
  | window f t => rfl
  | rangeError m => rw [hc] at hdr; exact Bool.noConfusion hdr

theorem searchGNews_run (k : String) (hk : k ≠ "") (o : GNewsParams → HttpOutcome GNewsBody)
    (date topic : String) (hdr : (computeDateFilter date).isRangeErr = false) :
    searchGNews (some k) o date topic = gnewsRun o (gnewsParamsFor k date topic) topic date := by
  unfold searchGNews
  rw [show (some k).getD "" = k from rfl, if_neg hk]
  cases hc : computeDateFilter date with
  | noFilter => rfl
  | window f t => rfl
  | rangeError m => rw [hc] at hdr; exact Bool.noConfusion hdr

/-! ### Claim C9 -/

/-- C9: every story record of any success result has a non empty headline,
    on the primary and the fallback path of both provider variants. -/
theorem success_story_headlines
    (kN kG : Option String) (oN : NewsParams → HttpOutcome NewsApiBody)
    (oG : GNewsParams → HttpOutcome GNewsBody) (date topic : String)
    (stories : List Story) (note : Option String) :
    ((searchNewsAPI kN oN date topic).1 = .success stories note →
      ∀ st ∈ stories, st.headline ≠ "") ∧
    ((searchGNews kG oG date topic).1 = .success stories note →
      ∀ st ∈ stories, st.headline ≠ "") :=
  ⟨searchNewsAPI_headlines kN oN date topic stories note,
   searchGNews_headlines kG oG date topic stories note⟩

/-- Witness for success_story_headlines on a concrete successful run. -/
theorem success_story_headlines_witness :
    ({ headline := "Alpha wins", source := "Wire", description := "", content := ""
     , url := "", publishedAt := "", image := none } : Story).headline ≠ "" :=
  (success_story_headlines (some "k") (some "k") (oracleConst bodyOkOne)
      (goracleConst gbodyOne) "" "ai"
      [{ headline := "Alpha wins", source := "Wire", description := "", content := ""
       , url := "", publishedAt := "", image := none }] none).1
    (by decide)
    { headline := "Alpha wins", source := "Wire", description := "", content := ""
    , url := "", publishedAt := "", image := none }
    (by decide)

/-! ### Claim C10 -/

/-- C10: a 200 NewsAPI response whose totalResults is positive but whose
    articles all lack a usable title yields the no articles failure and
    issues no fallback request even when a date window was applied: the
    fallback condition tests totalResults, not the surviving stories. -/
theorem empty_titles_no_fallback (k : String) (hk : k ≠ "")
    (o : NewsParams → HttpOutcome NewsApiBody) (date topic : String)
    (f t : Date) (hd : computeDateFilter date = .window f t)
    (data : NewsApiBody)
    (ho : o (newsParamsFor k date topic) = .response 200 (.ok data))
    (_hst : data.status = some "ok") (n : Nat) (htot : data.totalResults = some n)
    (hn : 0 < n) (arts : List Article) (harts : data.articles = some arts)
    (hempty : ∀ a ∈ arts, a.title.getD "" = "") :
    searchNewsAPI (some k) o date topic =
      (.error (noArticlesMsg topic date), [newsParamsFor k date topic]) := by
  have hstories : buildStoriesN arts = [] := by
    rw [buildStoriesN, List.filterMap_eq_nil_iff]
    intro a ha
    unfold storyOfArticle
    rw [if_neg]
    simp [hempty a ha]
  have hc1 : ¬(data.status.getD "" = "ok" ∧ 0 < data.totalResults.getD 0 ∧
      data.articles.getD [] ≠ [] ∧ buildStoriesN (data.articles.getD []) ≠ []) := by
    rw [harts]
    simp [hstories]
  have hc2 : ¬(data.status.getD "" = "ok" ∧ data.totalResults.getD 0 = 0) := by
    rw [htot]
    simp
    intro _
    omega
  have hp : newsProcess200 o (newsParamsFor k date topic) data topic date =
      (.error (noArticlesMsg topic date), []) := by
    unfold newsProcess200
    rw [if_neg hc1, if_neg hc2]
  rw [searchNewsAPI_run k hk o date topic (by rw [hd]; rfl)]
  unfold newsRun
  rw [ho]
  dsimp only
  rw [if_pos rfl, hp]

/-- Witness for empty_titles_no_fallback at a concrete dated query. -/
theorem empty_titles_no_fallback_witness :
    searchNewsAPI (some "k") (oracleConst bodyEmptyTitles) "2024-03-15" "ai" =
      (.error (noArticlesMsg "ai" "2024-03-15"), [newsParamsFor "k" "2024-03-15" "ai"]) :=
  empty_titles_no_fallback "k" (by decide) (oracleConst bodyEmptyTitles) "2024-03-15" "ai"
    ⟨2024, 3, 14⟩ ⟨2024, 3, 16⟩ (by decide) bodyEmptyTitles rfl rfl 2 rfl (by decide)
    [artUntitled, artUntitled] rfl (by decide)

/-! ### Helper lemmas about the zero result paths and date independence -/

theorem newsProcess200_zero_window (o : NewsParams → HttpOutcome NewsApiBody)
    (p : NewsParams) (data : NewsApiBody) (topic date : String)
    (hs : data.status = some "ok") (ht : data.totalResults = some 0)
    (hf : p.dateFrom.isSome = true) (hT : p.dateTo.isSome = true) :
    newsProcess200 o p data topic date =
      (newsFallbackRun o { p with sortBy := "popularity", dateFrom := none, dateTo := none } topic date,
       [{ p with sortBy := "popularity", dateFrom := none, dateTo := none }]) := by
  have hc1 : ¬(data.status.getD "" = "ok" ∧ 0 < data.totalResults.getD 0 ∧
      data.articles.getD [] ≠ [] ∧ buildStoriesN (data.articles.getD []) ≠ []) := by
    rw [ht]; simp
  have hc2 : data.status.getD "" = "ok" ∧ data.totalResults.getD 0 = 0 := by
    rw [hs, ht]; exact ⟨rfl, rfl⟩
  unfold newsProcess200
  rw [if_neg hc1, if_pos hc2, if_pos ⟨hf, hT⟩]

theorem newsProcess200_zero_noWindow (o : NewsParams → HttpOutcome NewsApiBody)
    (p : NewsParams) (data : NewsApiBody) (topic date : String)
    (hs : data.status = some "ok") (ht : data.totalResults = some 0)
    (hf : p.dateFrom = none) :
    newsProcess200 o p data topic date = (.error (noArticlesMsg topic date), []) := by
  have hc1 : ¬(data.status.getD "" = "ok" ∧ 0 < data.totalResults.getD 0 ∧
      data.articles.getD [] ≠ [] ∧ buildStoriesN (data.articles.getD []) ≠ []) := by
    rw [ht]; simp
  have hc2 : data.status.getD "" = "ok" ∧ data.totalResults.getD 0 = 0 := by
    rw [hs, ht]; exact ⟨rfl, rfl⟩
  have hw : ¬(p.dateFrom.isSome = true ∧ p.dateTo.isSome = true) := by
    rw [hf]; simp
  unfold newsProcess200
  rw [if_neg hc1, if_pos hc2, if_neg hw]

theorem gnewsProcess200_zero_window (o : GNewsParams → HttpOutcome GNewsBody)
    (p : GNewsParams) (data : GNewsBody) (topic date : String)
    (ha : data.articles.getD [] = [])
    (hf : p.dateFrom.isSome = true) (hT : p.dateTo.isSome = true) :
    gnewsProcess200 o p data topic date =
      (gnewsFallbackRun o { p with dateFrom := none, dateTo := none } topic date,
       [{ p with dateFrom := none, dateTo := none }]) := by
  have hc1 : ¬(data.articles.getD [] ≠ [] ∧ buildStoriesG (data.articles.getD []) ≠ []) := by
    rw [ha]; simp
  unfold gnewsProcess200
  rw [if_neg hc1, if_pos ha, if_pos ⟨hf, hT⟩]

theorem gnewsProcess200_zero_noWindow (o : GNewsParams → HttpOutcome GNewsBody)
    (p : GNewsParams) (data : GNewsBody) (topic date : String)
    (ha : data.articles.getD [] = []) (hf : p.dateFrom = none) :
    gnewsProcess200 o p data topic date = (.error (noArticlesMsg topic date), []) := by
  have hc1 : ¬(data.articles.getD [] ≠ [] ∧ buildStoriesG (data.articles.getD []) ≠ []) := by
    rw [ha]; simp
  have hw : ¬(p.dateFrom.isSome = true ∧ p.dateTo.isSome = true) := by
    rw [hf]; simp
  unfold gnewsProcess200
  rw [if_neg hc1, if_pos ha, if_neg hw]

theorem newsFallbackRun_dates (o : NewsParams → HttpOutcome NewsApiBody)
    (fb : NewsParams) (topic d1 d2 : String) :
    sameOutcome (newsFallbackRun o fb topic d1) (newsFallbackRun o fb topic d2) := by
  unfold newsFallbackRun
  cases ho : o fb with
  | exception e => exact trivial
  | response s body =>
    dsimp only
    by_cases hs : s = 200
    · rw [if_pos hs, if_pos hs]
      cases body with
      | error e => exact trivial
      | ok fdata =>
        dsimp only
        by_cases hok : fdata.status.getD "" = "ok" ∧ 0 < fdata.totalResults.getD 0
        · rw [if_pos hok, if_pos hok]
          cases ha : fdata.articles with
          | none => exact trivial
          | some arts =>
            dsimp only
            by_cases hbs : buildStoriesN arts ≠ []
            · rw [if_pos hbs, if_pos hbs]; exact ⟨rfl, rfl⟩
            · rw [if_neg hbs, if_neg hbs]; exact trivial
        · rw [if_neg hok, if_neg hok]; exact trivial
    · rw [if_neg hs, if_neg hs]; exact trivial

theorem newsProcess200_dates (o : NewsParams → HttpOutcome NewsApiBody)
    (p : NewsParams) (data : NewsApiBody) (topic d1 d2 : String) :
    sameOutcome (newsProcess200 o p data topic d1).1 (newsProcess200 o p data topic d2).1 := by
  unfold newsProcess200
  by_cases hc1 : data.status.getD "" = "ok" ∧ 0 < data.totalResults.getD 0 ∧
      data.articles.getD [] ≠ [] ∧ buildStoriesN (data.articles.getD []) ≠ []
  · rw [if_pos hc1, if_pos hc1]; exact ⟨rfl, rfl⟩
  · rw [if_neg hc1, if_neg hc1]
    by_cases hc2 : data.status.getD "" = "ok" ∧ data.totalResults.getD 0 = 0
    · rw [if_pos hc2, if_pos hc2]
      by_cases hw : p.dateFrom.isSome = true ∧ p.dateTo.isSome = true
      · rw [if_pos hw, if_pos hw]
        exact newsFallbackRun_dates o _ topic d1 d2
      · rw [if_neg hw, if_neg hw]; exact trivial
    · rw [if_neg hc2, if_neg hc2]; exact trivial

theorem newsRun_dates (o : NewsParams → HttpOutcome NewsApiBody)
    (p : NewsParams) (topic d1 d2 : String) :
    sameOutcome (newsRun o p topic d1).1 (newsRun o p topic d2).1 := by
  unfold newsRun
  cases ho : o p with
  | exception e => exact trivial
  | response s body =>
    dsimp only
    by_cases hs : s = 200
    · rw [if_pos hs, if_pos hs]
      cases body with
      | error e => exact trivial
      | ok data =>
        dsimp only
        exact newsProcess200_dates o p data topic d1 d2
    · rw [if_neg hs, if_neg hs]
      cases body with
      | error e => exact trivial
      | ok data => exact trivial

theorem gnewsFallbackRun_dates (o : GNewsParams → HttpOutcome GNewsBody)
    (fb : GNewsParams) (topic d1 d2 : String) :
    sameOutcome (gnewsFallbackRun o fb topic d1) (gnewsFallbackRun o fb topic d2) := by
  unfold gnewsFallbackRun
  cases ho : o fb with
  | exception e => exact trivial
  | response s body =>
    dsimp only
    by_cases hs : s = 200
    · rw [if_pos hs, if_pos hs]
      cases body with
      | error e => exact trivial
      | ok fdata =>
        dsimp only
        by_cases hok : fdata.articles.getD [] ≠ [] ∧ buildStoriesG (fdata.articles.getD []) ≠ []
        · rw [if_pos hok, if_pos hok]; exact ⟨rfl, rfl⟩
        · rw [if_neg hok, if_neg hok]; exact trivial
    · rw [if_neg hs, if_neg hs]; exact trivial

theorem gnewsProcess200_dates (o : GNewsParams → HttpOutcome GNewsBody)
    (p : GNewsParams) (data : GNewsBody) (topic d1 d2 : String) :
    sameOutcome (gnewsProcess200 o p data topic d1).1 (gnewsProcess200 o p data topic d2).1 := by
  unfold gnewsProcess200
  by_cases hc1 : data.articles.getD [] ≠ [] ∧ buildStoriesG (data.articles.getD []) ≠ []
  · rw [if_pos hc1, if_pos hc1]; exact ⟨rfl, rfl⟩
  · rw [if_neg hc1, if_neg hc1]
    by_cases hc2 : data.articles.getD [] = []
    · rw [if_pos hc2, if_pos hc2]
      by_cases hw : p.dateFrom.isSome = true ∧ p.dateTo.isSome = true
      · rw [if_pos hw, if_pos hw]
        exact gnewsFallbackRun_dates o _ topic d1 d2
      · rw [if_neg hw, if_neg hw]; exact trivial
    · rw [if_neg hc2, if_neg hc2]; exact trivial

theorem gnewsRun_dates (o : GNewsParams → HttpOutcome GNewsBody)
    (p : GNewsParams) (topic d1 d2 : String) :
    sameOutcome (gnewsRun o p topic d1).1 (gnewsRun o p topic d2).1 := by
  unfold gnewsRun
  cases ho : o p with
  | exception e => exact trivial
  | response s body =>
    dsimp only
    by_cases hs : s = 200
    · rw [if_pos hs, if_pos hs]
      cases body with
      | error e => exact trivial
      | ok data =>
        dsimp only
        exact gnewsProcess200_dates o p data topic d1 d2
    · rw [if_neg hs, if_neg hs]
      have hb := gnewsNon200_isErr s body
      cases hg : gnewsNon200Result s body with
      | success st n => rw [hg] at hb; exact Bool.noConfusion hb
      | error m => exact trivial

theorem newsProcess200_log_noWindow (o : NewsParams → HttpOutcome NewsApiBody)
    (p : NewsParams) (data : NewsApiBody) (topic date : String)
    (hf : p.dateFrom = none) :
    (newsProcess200 o p data topic date).2 = [] := by
  unfold newsProcess200
  repeat' split
  all_goals try rfl
  all_goals rename_i hw
  all_goals rw [hf] at hw
  all_goals exact absurd hw.1 (by simp)

theorem newsRun_log_noWindow (o : NewsParams → HttpOutcome NewsApiBody)
    (p : NewsParams) (topic date : String) (hf : p.dateFrom = none) :
    (newsRun o p topic date).2 = [p] := by
  unfold newsRun
  cases ho : o p with
  | exception e => rfl
  | response s body =>
    dsimp only
    by_cases hs : s = 200
    · rw [if_pos hs]
      cases body with
      | error e => rfl
      | ok data =>
        dsimp only
        rw [newsProcess200_log_noWindow o p data topic date hf]
    · rw [if_neg hs]
      cases body with
      | error e => rfl
      | ok data => rfl

theorem gnewsProcess200_log_noWindow (o : GNewsParams → HttpOutcome GNewsBody)
    (p : GNewsParams) (data : GNewsBody) (topic date : String)
    (hf : p.dateFrom = none) :
    (gnewsProcess200 o p data topic date).2 = [] := by
  unfold gnewsProcess200
  repeat' split
  all_goals try rfl
  all_goals rename_i hw
  all_goals rw [hf] at hw
  all_goals exact absurd hw.1 (by simp)

theorem gnewsRun_log_noWindow (o : GNewsParams → HttpOutcome GNewsBody)
    (p : GNewsParams) (topic date : String) (hf : p.dateFrom = none) :
    (gnewsRun o p topic date).2 = [p] := by
  unfold gnewsRun
  cases ho : o p with
  | exception e => rfl
  | response s body =>
    dsimp only
    by_cases hs : s = 200
    · rw [if_pos hs]
      cases body with
      | error e => rfl
      | ok data =>
        dsimp only
        rw [gnewsProcess200_log_noWindow o p data topic date hf]
    · rw [if_neg hs]

/-! ### Claim C1 -/

/-- C1 amended: on a zero result primary response with a date window
    attached, the client issues exactly one fallback request with the
    window removed; for the GNews variant that request is otherwise
    identical to the primary one, while for the NewsAPI variant the sort
    key is additionally switched from relevancy to popularity; when the
    fallback response carries usable articles the result is a success with
    the advisory widening note. -/
theorem fallback_window_removed (k : String) (hk : k ≠ "") (date topic : String)
    (f t : Date) (hd : computeDateFilter date = .window f t)
    (oN : NewsParams → HttpOutcome NewsApiBody)
    (oG : GNewsParams → HttpOutcome GNewsBody)
    (dataN : NewsApiBody)
    (hoN : oN (newsParamsFor k date topic) = .response 200 (.ok dataN))
    (hsN : dataN.status = some "ok") (htN : dataN.totalResults = some 0)
    (dataG : GNewsBody)
    (hoG : oG (gnewsParamsFor k date topic) = .response 200 (.ok dataG))
    (haG : dataG.articles.getD [] = []) :
    ((searchNewsAPI (some k) oN date topic).2 =
      [newsParamsFor k date topic,
       { newsParamsFor k date topic with sortBy := "popularity", dateFrom := none, dateTo := none }] ∧
     (∀ fdata arts,
        oN { newsParamsFor k date topic with sortBy := "popularity", dateFrom := none, dateTo := none } =
          .response 200 (.ok fdata) →
        fdata.status = some "ok" → 0 < fdata.totalResults.getD 0 →
        fdata.articles = some arts → buildStoriesN arts ≠ [] →
        (searchNewsAPI (some k) oN date topic).1 =
          .success (buildStoriesN arts) (some expandNote))) ∧
    ((searchGNews (some k) oG date topic).2 =
      [gnewsParamsFor k date topic,
       { gnewsParamsFor k date topic with dateFrom := none, dateTo := none }] ∧
     (∀ fdata,
        oG { gnewsParamsFor k date topic with dateFrom := none, dateTo := none } =
          .response 200 (.ok fdata) →
        buildStoriesG (fdata.articles.getD []) ≠ [] →
        (searchGNews (some k) oG date topic).1 =
          .success (buildStoriesG (fdata.articles.getD [])) (some expandNote))) := by
  have hpf : (newsParamsFor k date topic).dateFrom.isSome = true := by
    unfold newsParamsFor; rw [hd]; rfl
  have hpt : (newsParamsFor k date topic).dateTo.isSome = true := by
    unfold newsParamsFor; rw [hd]; rfl
  have hgf : (gnewsParamsFor k date topic).dateFrom.isSome = true := by
    unfold gnewsParamsFor; rw [hd]; rfl
  have hgt : (gnewsParamsFor k date topic).dateTo.isSome = true := by
    unfold gnewsParamsFor; rw [hd]; rfl
  have hnews : searchNewsAPI (some k) oN date topic =
      (newsFallbackRun oN
        { newsParamsFor k date topic with sortBy := "popularity", dateFrom := none, dateTo := none }
        topic date,
       [newsParamsFor k date topic,
        { newsParamsFor k date topic with sortBy := "popularity", dateFrom := none, dateTo := none }]) := by
    rw [searchNewsAPI_run k hk oN date topic (by rw [hd]; rfl)]
    unfold newsRun
    rw [hoN]
    try dsimp only
    rw [if_pos rfl]
    try dsimp only
    rw [newsProcess200_zero_window oN _ dataN topic date hsN htN hpf hpt]
  have hgnews : searchGNews (some k) oG date topic =
      (gnewsFallbackRun oG { gnewsParamsFor k date topic with dateFrom := none, dateTo := none }
        topic date,
       [gnewsParamsFor k date topic,
        { gnewsParamsFor k date topic with dateFrom := none, dateTo := none }]) := by
    rw [searchGNews_run k hk oG date topic (by rw [hd]; rfl)]
    unfold gnewsRun
    rw [hoG]
    try dsimp only
    rw [if_pos rfl]
    try dsimp only
    rw [gnewsProcess200_zero_window oG _ dataG topic date haG hgf hgt]
  refine ⟨⟨?_, ?_⟩, ?_, ?_⟩
  · rw [hnews]
  · intro fdata arts hofb hfs hft hfa hbs
    rw [hnews]
    try dsimp only
    unfold newsFallbackRun
    rw [hofb]
    try dsimp only
    rw [if_pos rfl]
    try dsimp only
    rw [if_pos ⟨by rw [hfs]; rfl, hft⟩, hfa]
    try dsimp only
    rw [if_pos hbs]
  · rw [hgnews]
  · intro fdata hofb hbs
    have hfa : fdata.articles.getD [] ≠ [] := by
      intro hc
      exact hbs (by rw [hc]; rfl)
    rw [hgnews]
    try dsimp only
    unfold gnewsFallbackRun
    rw [hofb]
    try dsimp only
    rw [if_pos rfl]
    try dsimp only
    rw [if_pos ⟨hfa, hbs⟩]

/-! ### Claim C2 -/

/-- C2 amended: for the NewsAPI variant a zero result response triggers a
    retry only when a date window was attached, and that single retry both
    switches the sort key to popularity and removes the window; for a zero
    result query without a date filter no retry is issued at all and the
    failure is reported after the one primary request. -/
theorem popularity_retry_shape (k : String) (hk : k ≠ "") (date topic : String)
    (oN : NewsParams → HttpOutcome NewsApiBody) (dataN : NewsApiBody)
    (hsN : dataN.status = some "ok") (htN : dataN.totalResults = some 0) :
    (∀ f t, computeDateFilter date = .window f t →
      oN (newsParamsFor k date topic) = .response 200 (.ok dataN) →
      (searchNewsAPI (some k) oN date topic).2 =
        [newsParamsFor k date topic,
         { newsParamsFor k date topic with sortBy := "popularity", dateFrom := none, dateTo := none }]) ∧
    (computeDateFilter date = .noFilter →
      oN (newsParamsFor k date topic) = .response 200 (.ok dataN) →
      searchNewsAPI (some k) oN date topic =
        (.error (noArticlesMsg topic date), [newsParamsFor k date topic])) := by
  constructor
  · intro f t hd hoN
    have hpf : (newsParamsFor k date topic).dateFrom.isSome = true := by
      unfold newsParamsFor; rw [hd]; rfl
    have hpt : (newsParamsFor k date topic).dateTo.isSome = true := by
      unfold newsParamsFor; rw [hd]; rfl
    rw [searchNewsAPI_run k hk oN date topic (by rw [hd]; rfl)]
    unfold newsRun
    rw [hoN]
    try dsimp only
    rw [if_pos rfl]
    try dsimp only
    rw [newsProcess200_zero_window oN _ dataN topic date hsN htN hpf hpt]
  · intro hd hoN
    have hpf : (newsParamsFor k date topic).dateFrom = none := by
      unfold newsParamsFor; rw [hd]; rfl
    rw [searchNewsAPI_run k hk oN date topic (by rw [hd]; rfl)]
    unfold newsRun
    rw [hoN]
    try dsimp only
    rw [if_pos rfl]
    try dsimp only
    rw [newsProcess200_zero_noWindow oN _ dataN topic date hsN htN hpf]

/-! ### Claim C4 -/

/-- C4: a date string that fails to parse yields a request with no date
    bounds, exactly one request, and an outcome matching the outcome of
    the same search with an empty date up to error message text: the
    malformed date never causes the failure by itself. -/
theorem malformed_date_proceeds (k : String) (hk : k ≠ "")
    (oN : NewsParams → HttpOutcome NewsApiBody)
    (oG : GNewsParams → HttpOutcome GNewsBody) (date topic : String)
    (hd : computeDateFilter date = .noFilter) :
    (newsParamsFor k date topic).dateFrom = none ∧
    (newsParamsFor k date topic).dateTo = none ∧
    (searchNewsAPI (some k) oN date topic).2 = [newsParamsFor k date topic] ∧
    sameOutcome (searchNewsAPI (some k) oN date topic).1 (searchNewsAPI (some k) oN "" topic).1 ∧
    (gnewsParamsFor k date topic).dateFrom = none ∧
    (gnewsParamsFor k date topic).dateTo = none ∧
    (searchGNews (some k) oG date topic).2 = [gnewsParamsFor k date topic] ∧
    sameOutcome (searchGNews (some k) oG date topic).1 (searchGNews (some k) oG "" topic).1 := by
  have hbase : newsParamsFor k date topic = baseNewsParams k topic := by
    unfold newsParamsFor; rw [hd]; rfl
  have hbase0 : newsParamsFor k "" topic = baseNewsParams k topic := by
    unfold newsParamsFor; rfl
  have hgbase : gnewsParamsFor k date topic = baseGNewsParams k topic := by
    unfold gnewsParamsFor; rw [hd]; rfl
  have hgbase0 : gnewsParamsFor k "" topic = baseGNewsParams k topic := by
    unfold gnewsParamsFor; rfl
  have hrun := searchNewsAPI_run k hk oN date topic (by rw [hd]; rfl)
  have hrun0 := searchNewsAPI_run k hk oN "" topic (by rfl)
  have hgrun := searchGNews_run k hk oG date topic (by rw [hd]; rfl)
  have hgrun0 := searchGNews_run k hk oG "" topic (by rfl)
  refine ⟨?_, ?_, ?_, ?_, ?_, ?_, ?_, ?_⟩
  · rw [hbase]; rfl
  · rw [hbase]; rfl
  · rw [hrun, hbase]
    exact newsRun_log_noWindow oN _ topic date rfl
  · rw [hrun, hrun0, hbase, hbase0]
    exact newsRun_dates oN _ topic date ""
  · rw [hgbase]; rfl
  · rw [hgbase]; rfl
  · rw [hgrun, hgbase]
    exact gnewsRun_log_noWindow oG _ topic date rfl
  · rw [hgrun, hgrun0, hgbase, hgbase0]
    exact gnewsRun_dates oG _ topic date ""

/-! ### Claim C6 -/

/-- C6: every transport level error on the primary request (a raised
    exception such as a timeout, a non 200 response, or a 200 body that
    fails to parse) is converted into a Failure carrying the provider
    supplied text, with no fallback request issued; the embedding is a
    total function, so no exception escapes to the caller. -/
theorem transport_error_failure (k : String) (hk : k ≠ "") (date topic : String)
    (hdr : (computeDateFilter date).isRangeErr = false)
    (oN : NewsParams → HttpOutcome NewsApiBody)
    (oG : GNewsParams → HttpOutcome GNewsBody) :
    (∀ e, oN (newsParamsFor k date topic) = .exception e →
      searchNewsAPI (some k) oN date topic =
        (.error ("Error fetching news: " ++ e), [newsParamsFor k date topic])) ∧
    (∀ s data, oN (newsParamsFor k date topic) = .response s (.ok data) → s ≠ 200 →
      searchNewsAPI (some k) oN date topic =
        (.error ("NewsAPI error: " ++ data.message.getD "Unknown error"),
         [newsParamsFor k date topic])) ∧
    (∀ s e, oN (newsParamsFor k date topic) = .response s (.error e) → s ≠ 200 →
      searchNewsAPI (some k) oN date topic =
        (.error ("NewsAPI error: HTTP error " ++ toString s), [newsParamsFor k date topic])) ∧
    (∀ e, oN (newsParamsFor k date topic) = .response 200 (.error e) →
      searchNewsAPI (some k) oN date topic =
        (.error ("Error fetching news: " ++ e), [newsParamsFor k date topic])) ∧
    (∀ e, oG (gnewsParamsFor k date topic) = .exception e →
      searchGNews (some k) oG date topic =
        (.error ("Error fetching news: " ++ e), [gnewsParamsFor k date topic])) ∧
    (∀ s body, oG (gnewsParamsFor k date topic) = .response s body → s ≠ 200 →
      searchGNews (some k) oG date topic =
        (gnewsNon200Result s body, [gnewsParamsFor k date topic]) ∧
      (gnewsNon200Result s body).isErr = true) ∧
    (∀ e, oG (gnewsParamsFor k date topic) = .response 200 (.error e) →
      searchGNews (some k) oG date topic =
        (.error ("Error fetching news: " ++ e), [gnewsParamsFor k date topic])) := by
  refine ⟨?_, ?_, ?_, ?_, ?_, ?_, ?_⟩
  · intro e ho
    rw [searchNewsAPI_run k hk oN date topic hdr]
    unfold newsRun
    rw [ho]
  · intro s data ho hs
    rw [searchNewsAPI_run k hk oN date topic hdr]
    unfold newsRun
    rw [ho]
    try dsimp only
    rw [if_neg hs]
  · intro s e ho hs
    rw [searchNewsAPI_run k hk oN date topic hdr]
    unfold newsRun
    rw [ho]
    try dsimp only
    rw [if_neg hs]
  · intro e ho
    rw [searchNewsAPI_run k hk oN date topic hdr]
    unfold newsRun
    rw [ho]
    try dsimp only
    rw [if_pos rfl]
  · intro e ho
    rw [searchGNews_run k hk oG date topic hdr]
    unfold gnewsRun
    rw [ho]
  · intro s body ho hs
    refine ⟨?_, gnewsNon200_isErr s body⟩
    rw [searchGNews_run k hk oG date topic hdr]
    unfold gnewsRun
    rw [ho]
    try dsimp only
    rw [if_neg hs]
  · intro e ho
    rw [searchGNews_run k hk oG date topic hdr]
    unfold gnewsRun
    rw [ho]
    try dsimp only
    rw [if_pos rfl]

/-- Witness for fallback_window_removed on a concrete widening run. -/
theorem fallback_window_removed_witness :
    (searchNewsAPI (some "k") oracleWiden "2024-03-15" "ai").2 =
      [newsParamsFor "k" "2024-03-15" "ai",
       { newsParamsFor "k" "2024-03-15" "ai" with sortBy := "popularity", dateFrom := none, dateTo := none }] :=
  (fallback_window_removed "k" (by decide) "2024-03-15" "ai" ⟨2024, 3, 14⟩ ⟨2024, 3, 16⟩
      (by decide) oracleWiden goracleWiden bodyZero rfl rfl rfl gbodyZero rfl rfl).1.1

/-- C1 counterexample: the NewsAPI fallback request is not the identical
    primary query with only the date window removed; its sort key differs
    from the primary request. -/
theorem fallback_not_identical_counterexample :
    (searchNewsAPI (some "k") oracleWiden "2024-03-15" "ai").2.map NewsParams.sortBy =
      ["relevancy", "popularity"] := by decide

/-- Witness for popularity_retry_shape on a concrete no filter run. -/
theorem popularity_retry_shape_witness :
    searchNewsAPI (some "k") (oracleConst bodyZero) "" "ai" =
      (.error (noArticlesMsg "ai" ""), [newsParamsFor "k" "" "ai"]) :=
  (popularity_retry_shape "k" (by decide) "" "ai" (oracleConst bodyZero) bodyZero rfl rfl).2
    rfl rfl

/-- C2 counterexample: a zero result query issued without a date filter
    reports failure after a single request; no popularity retry happens. -/
theorem popularity_retry_counterexample :
    (searchNewsAPI (some "k") (oracleConst bodyZero) "" "ai").2.length = 1 ∧
    (searchNewsAPI (some "k") (oracleConst bodyZero) "" "ai").1.isErr = true := by decide

/-- Witness for malformed_date_proceeds on a concrete malformed date. -/
theorem malformed_date_proceeds_witness :
    (newsParamsFor "k" "not-a-date-x" "ai").dateFrom = none :=
  (malformed_date_proceeds "k" (by decide) (oracleConst bodyOkOne) (goracleConst gbodyOne)
      "not-a-date-x" "ai" (by decide)).1

/-- Witness for transport_error_failure on a concrete 429 response. -/
theorem transport_error_failure_witness :
    searchNewsAPI (some "k") (oracle429 bodyLimited) "" "ai" =
      (.error ("NewsAPI error: " ++ bodyLimited.message.getD "Unknown error"),
       [newsParamsFor "k" "" "ai"]) :=
  (transport_error_failure "k" (by decide) "" "ai" (by decide) (oracle429 bodyLimited)
      goracle429).2.1 429 bodyLimited rfl (by decide)


/-! ### Helper lemmas about the date format, the parser and the calendar -/

theorem dChar_isDigit (k : Nat) (hk : k ≤ 9) : (dChar k).isDigit = true := by
  interval_cases k <;> rfl

theorem dval_dChar (k : Nat) (hk : k ≤ 9) : dval (dChar k) = k := by
  interval_cases k <;> rfl

theorem dChar_neT (k : Nat) (hk : k ≤ 9) : (dChar k != 'T') = true := by
  interval_cases k <;> rfl

theorem parseMonthNum_digits2 (m : Nat) (h1 : 1 ≤ m) (h2 : m ≤ 12) :
    ∀ r, parseMonthNum (digits2 m ++ r) = some (m, r) := by
  interval_cases m <;> exact fun _ => rfl

theorem parseDayNum_digits2 (d : Nat) (h1 : 1 ≤ d) (h2 : d ≤ 31) :
    ∀ r, parseDayNum (digits2 d ++ r) = some (d, r) := by
  interval_cases d <;> exact fun _ => rfl

theorem validDate_iff (dt : Date) : validDate dt = true ↔
    (1 ≤ dt.year ∧ dt.year ≤ 9999 ∧ 1 ≤ dt.month ∧ dt.month ≤ 12 ∧
     1 ≤ dt.day ∧ dt.day ≤ daysInMonth dt.year dt.month) := by
  unfold validDate
  simp [Bool.and_eq_true, decide_eq_true_eq, and_assoc]

theorem daysInMonth_pos (y m : Nat) : 1 ≤ daysInMonth y m := by
  unfold daysInMonth
  repeat' split
  all_goals omega

theorem daysInMonth_le31 (y m : Nat) : daysInMonth y m ≤ 31 := by
  unfold daysInMonth
  repeat' split
  all_goals omega

theorem daysBeforeMonth_succ (y m : Nat) (h : 1 ≤ m) :
    daysBeforeMonth y (m + 1) = daysBeforeMonth y m + daysInMonth y m := by
  have hm : ¬(m = 0) := by omega
  simp [daysBeforeMonth, hm]

theorem daysBeforeMonth_12 (y : Nat) :
    daysBeforeMonth y 12 + daysInMonth y 12 = daysInYear y := by
  have e2 : daysBeforeMonth y 2 = daysBeforeMonth y 1 + daysInMonth y 1 := daysBeforeMonth_succ y 1 (by omega)
  have e3 : daysBeforeMonth y 3 = daysBeforeMonth y 2 + daysInMonth y 2 := daysBeforeMonth_succ y 2 (by omega)
  have e4 : daysBeforeMonth y 4 = daysBeforeMonth y 3 + daysInMonth y 3 := daysBeforeMonth_succ y 3 (by omega)
  have e5 : daysBeforeMonth y 5 = daysBeforeMonth y 4 + daysInMonth y 4 := daysBeforeMonth_succ y 4 (by omega)
  have e6 : daysBeforeMonth y 6 = daysBeforeMonth y 5 + daysInMonth y 5 := daysBeforeMonth_succ y 5 (by omega)
  have e7 : daysBeforeMonth y 7 = daysBeforeMonth y 6 + daysInMonth y 6 := daysBeforeMonth_succ y 6 (by omega)
  have e8 : daysBeforeMonth y 8 = daysBeforeMonth y 7 + daysInMonth y 7 := daysBeforeMonth_succ y 7 (by omega)
  have e9 : daysBeforeMonth y 9 = daysBeforeMonth y 8 + daysInMonth y 8 := daysBeforeMonth_succ y 8 (by omega)
  have e10 : daysBeforeMonth y 10 = daysBeforeMonth y 9 + daysInMonth y 9 := daysBeforeMonth_succ y 9 (by omega)
  have e11 : daysBeforeMonth y 11 = daysBeforeMonth y 10 + daysInMonth y 10 := daysBeforeMonth_succ y 10 (by omega)
  have e12 : daysBeforeMonth y 12 = daysBeforeMonth y 11 + daysInMonth y 11 := daysBeforeMonth_succ y 11 (by omega)
  have e1 : daysBeforeMonth y 1 = 0 := rfl
  have d1 : daysInMonth y 1 = 31 := rfl
  have d3 : daysInMonth y 3 = 31 := rfl
  have d4 : daysInMonth y 4 = 30 := rfl
  have d5 : daysInMonth y 5 = 31 := rfl
  have d6 : daysInMonth y 6 = 30 := rfl
  have d7 : daysInMonth y 7 = 31 := rfl
  have d8 : daysInMonth y 8 = 31 := rfl
  have d9 : daysInMonth y 9 = 30 := rfl
  have d10 : daysInMonth y 10 = 31 := rfl
  have d11 : daysInMonth y 11 = 30 := rfl
  have d12 : daysInMonth y 12 = 31 := rfl
  by_cases h : isLeap y = true
  · have d2 : daysInMonth y 2 = 29 := by unfold daysInMonth; simp [h]
    have hy : daysInYear y = 366 := by unfold daysInYear; simp [h]
    omega
  · have hb : isLeap y = false := by revert h; cases isLeap y <;> simp
    have d2 : daysInMonth y 2 = 28 := by unfold daysInMonth; simp [hb]
    have hy : daysInYear y = 365 := by unfold daysInYear; simp [hb]
    omega

theorem parseYMD_format (y m d : Nat) (hy1 : 1 ≤ y) (hy2 : y ≤ 9999)
    (hm1 : 1 ≤ m) (hm2 : m ≤ 12) (hd1 : 1 ≤ d) (hd2 : d ≤ daysInMonth y m) :
    parseYMD (formatChars ⟨y, m, d⟩) = some ⟨y, m, d⟩ := by
  have hk1 : y / 1000 ≤ 9 := by omega
  have hk2 : y / 100 % 10 ≤ 9 := by omega
  have hk3 : y / 10 % 10 ≤ 9 := by omega
  have hk4 : y % 10 ≤ 9 := by omega
  have hd31 : d ≤ 31 := le_trans hd2 (daysInMonth_le31 y m)
  have hpd : parseDayNum (digits2 d) = some (d, []) := by
    have := parseDayNum_digits2 d hd1 hd31 []
    rwa [List.append_nil] at this
  have hyval : dval (dChar (y / 1000)) * 1000 + dval (dChar (y / 100 % 10)) * 100 +
      dval (dChar (y / 10 % 10)) * 10 + dval (dChar (y % 10)) = y := by
    rw [dval_dChar _ hk1, dval_dChar _ hk2, dval_dChar _ hk3, dval_dChar _ hk4]
    have hdv1 : y / 100 / 10 = y / 1000 := by rw [Nat.div_div_eq_div_mul]
    have hdv2 : y / 10 / 10 = y / 100 := by rw [Nat.div_div_eq_div_mul]
    omega
  show parseYMD (dChar (y / 1000) :: dChar (y / 100 % 10) :: dChar (y / 10 % 10) ::
    dChar (y % 10) :: '-' :: (digits2 m ++ '-' :: digits2 d)) = some ⟨y, m, d⟩
  simp only [parseYMD]
  rw [if_pos ⟨dChar_isDigit _ hk1, dChar_isDigit _ hk2, dChar_isDigit _ hk3,
    dChar_isDigit _ hk4, trivial⟩]
  rw [parseMonthNum_digits2 m hm1 hm2 ('-' :: digits2 d)]
  dsimp only
  rw [if_pos rfl, hpd]
  dsimp only
  rw [if_pos rfl, hyval]
  rw [if_pos ⟨hy1, hd2⟩]

theorem takeWhile_all_of (l : List Char) (p : Char → Bool)
    (hl : ∀ c ∈ l, p c = true) : l.takeWhile p = l := by
  induction l with
  | nil => rfl
  | cons a as ih =>
    rw [List.takeWhile_cons, hl a (List.mem_cons_self a as)]
    simp only [if_pos rfl]
    rw [ih (fun c hc => hl c (List.mem_cons_of_mem a hc))]
    simp

theorem takeWhile_append_of (l r : List Char) (x : Char) (p : Char → Bool)
    (hl : ∀ c ∈ l, p c = true) (hx : p x = false) :
    (l ++ x :: r).takeWhile p = l := by
  induction l with
  | nil => simp [List.takeWhile_cons, hx]
  | cons a as ih =>
    rw [List.cons_append, List.takeWhile_cons, hl a (List.mem_cons_self a as)]
    simp only [if_pos rfl]
    rw [ih (fun c hc => hl c (List.mem_cons_of_mem a hc))]
    simp

theorem formatChars_length (dt : Date) : (formatChars dt).length = 10 := rfl

theorem formatChars_mem_dash (dt : Date) : '-' ∈ formatChars dt := by
  unfold formatChars
  exact List.mem_append_right _ (List.mem_cons_self '-' _)

theorem formatChars_neT (dt : Date) (hy : dt.year ≤ 9999) (hm : dt.month ≤ 12)
    (hd : dt.day ≤ 31) : ∀ c ∈ formatChars dt, (c != 'T') = true := by
  intro c hc
  simp only [formatChars, digits4, digits2, List.cons_append, List.nil_append,
    List.mem_cons, List.mem_singleton] at hc
  rcases hc with rfl | rfl | rfl | rfl | rfl | rfl | rfl | rfl | rfl | rfl | hc
  · exact dChar_neT _ (by omega)
  · exact dChar_neT _ (by omega)
  · exact dChar_neT _ (by omega)
  · exact dChar_neT _ (by omega)
  · rfl
  · exact dChar_neT _ (by omega)
  · exact dChar_neT _ (by omega)
  · rfl
  · exact dChar_neT _ (by omega)
  · exact dChar_neT _ (by omega)
  · cases hc

theorem dropWhile_ne_nil_of_mem (p : Char → Bool) (l : List Char) (c : Char)
    (hc : c ∈ l) (hpc : p c = false) : l.dropWhile p ≠ [] := by
  induction l with
  | nil => cases hc
  | cons a as ih =>
    rw [List.dropWhile_cons]
    split
    · next hpa =>
      rcases List.mem_cons.mp hc with h | h
      · subst h; rw [hpa] at hpc; cases hpc
      · exact ih h
    · simp

theorem dropWhile_head_false (p : Char → Bool) (l : List Char) (x : Char)
    (xs : List Char) (h : l.dropWhile p = x :: xs) : p x = false := by
  induction l with
  | nil => simp at h
  | cons a as ih =>
    rw [List.dropWhile_cons] at h
    split at h
    · exact ih h
    · next hpa => cases h; simpa using hpa

theorem pyStripL_ne_nil (l : List Char) (c : Char) (hc : c ∈ l)
    (hpc : pyIsSpace c = false) : pyStripL l ≠ [] := by
  unfold pyStripL
  intro hcon
  have h1 : (l.dropWhile pyIsSpace).reverse.dropWhile pyIsSpace = [] := by
    simpa using congrArg List.reverse hcon
  rcases hd : l.dropWhile pyIsSpace with _ | ⟨x, xs⟩
  · exact dropWhile_ne_nil_of_mem pyIsSpace l c hc hpc hd
  · have hx : pyIsSpace x = false := dropWhile_head_false pyIsSpace l x xs hd
    have hxmem : x ∈ (l.dropWhile pyIsSpace).reverse := by rw [hd]; simp
    exact dropWhile_ne_nil_of_mem pyIsSpace _ x hxmem hx h1

theorem dateFilterOfChars_format (y m d : Nat) (hv : validDate ⟨y, m, d⟩ = true)
    (suffix : List Char) (hs : suffix = [] ∨ ∃ r, suffix = 'T' :: r) :
    dateFilterOfChars (formatChars ⟨y, m, d⟩ ++ suffix) =
      (match predDay ⟨y, m, d⟩, succDay ⟨y, m, d⟩ with
       | some f, some t => DateFilter.window f t
       | _, _ => DateFilter.rangeError "date value out of range") := by
  obtain ⟨hy1, hy2, hm1, hm2, hd1, hd2⟩ := (validDate_iff _).mp hv
  have hd31 : d ≤ 31 := le_trans hd2 (daysInMonth_le31 y m)
  have hne : ∀ c ∈ formatChars ⟨y, m, d⟩, (fun c => c != 'T') c = true :=
    formatChars_neT ⟨y, m, d⟩ hy2 hm2 hd31
  have htake : (formatChars ⟨y, m, d⟩ ++ suffix).takeWhile (fun c => c != 'T') =
      formatChars ⟨y, m, d⟩ := by
    rcases hs with rfl | ⟨r, rfl⟩
    · rw [List.append_nil]
      exact takeWhile_all_of _ _ hne
    · exact takeWhile_append_of _ _ _ _ hne rfl
  have hdashmem : '-' ∈ formatChars ⟨y, m, d⟩ ++ suffix :=
    List.mem_append_left _ (formatChars_mem_dash _)
  have hnonnil : formatChars ⟨y, m, d⟩ ++ suffix ≠ [] := by
    intro hcon
    rw [hcon] at hdashmem
    cases hdashmem
  have hstrip : pyStripL (formatChars ⟨y, m, d⟩ ++ suffix) ≠ [] :=
    pyStripL_ne_nil _ '-' hdashmem rfl
  have hlen : 10 ≤ (formatChars ⟨y, m, d⟩ ++ suffix).length := by
    rw [List.length_append, formatChars_length]
    omega
  have hcont : (formatChars ⟨y, m, d⟩ ++ suffix).contains '-' = true :=
    List.elem_iff.mpr hdashmem
  unfold dateFilterOfChars
  rw [if_pos ⟨hnonnil, hstrip⟩, if_pos ⟨hlen, hcont⟩, htake,
    parseYMD_format y m d hy1 hy2 hm1 hm2 hd1 hd2]

theorem predDay_some (dt : Date) (hv : validDate dt = true)
    (hne : ¬(dt.year = 1 ∧ dt.month = 1 ∧ dt.day = 1)) : ∃ P, predDay dt = some P := by
  rcases dt with ⟨Y, M, D⟩
  obtain ⟨hy1, hy2, hm1, hm2, hd1, hd2⟩ := (validDate_iff ⟨Y, M, D⟩).mp hv
  dsimp only at hy1 hy2 hm1 hm2 hd1 hd2 hne
  unfold predDay
  dsimp only
  split
  · exact ⟨_, rfl⟩
  · split
    · exact ⟨_, rfl⟩
    · split
      · exact ⟨_, rfl⟩
      · next h1 h2 h3 => exact absurd ⟨by omega, by omega, by omega⟩ hne

theorem succDay_some (dt : Date) (hv : validDate dt = true)
    (hne : ¬(dt.year = 9999 ∧ dt.month = 12 ∧ dt.day = 31)) : ∃ S, succDay dt = some S := by
  rcases dt with ⟨Y, M, D⟩
  obtain ⟨hy1, hy2, hm1, hm2, hd1, hd2⟩ := (validDate_iff ⟨Y, M, D⟩).mp hv
  dsimp only at hy1 hy2 hm1 hm2 hd1 hd2 hne
  unfold succDay
  dsimp only
  split
  · exact ⟨_, rfl⟩
  · split
    · exact ⟨_, rfl⟩
    · split
      · exact ⟨_, rfl⟩
      · next h1 h2 h3 =>
        have hm12 : M = 12 := by omega
        subst hm12
        have hdim : daysInMonth Y 12 = 31 := rfl
        exact absurd ⟨by omega, rfl, by omega⟩ hne

theorem dateOrd_pred (dt : Date) (hv : validDate dt = true) (P : Date)
    (hP : predDay dt = some P) : dateOrd P + 1 = dateOrd dt ∧ validDate P = true := by
  rcases dt with ⟨Y, M, D⟩
  obtain ⟨hy1, hy2, hm1, hm2, hd1, hd2⟩ := (validDate_iff ⟨Y, M, D⟩).mp hv
  dsimp only at hy1 hy2 hm1 hm2 hd1 hd2
  unfold predDay at hP
  dsimp only at hP
  split at hP
  · next hday =>
    cases hP
    constructor
    · show daysBeforeYear Y + daysBeforeMonth Y M + (D - 1) + 1 =
        daysBeforeYear Y + daysBeforeMonth Y M + D
      omega
    · rw [validDate_iff]
      refine ⟨hy1, hy2, hm1, hm2, ?_, ?_⟩
      · show 1 ≤ D - 1
        omega
      · show D - 1 ≤ daysInMonth Y M
        omega
  · next hday =>
    split at hP
    · next hmon =>
      cases hP
      have hstep : daysBeforeMonth Y (M - 1 + 1) =
          daysBeforeMonth Y (M - 1) + daysInMonth Y (M - 1) :=
        daysBeforeMonth_succ Y (M - 1) (by omega)
      have hmm : M - 1 + 1 = M := by omega
      rw [hmm] at hstep
      constructor
      · show daysBeforeYear Y + daysBeforeMonth Y (M - 1) + daysInMonth Y (M - 1) + 1 =
          daysBeforeYear Y + daysBeforeMonth Y M + D
        omega
      · rw [validDate_iff]
        refine ⟨hy1, hy2, ?_, ?_, ?_, ?_⟩
        · show 1 ≤ M - 1
          omega
        · show M - 1 ≤ 12
          omega
        · show 1 ≤ daysInMonth Y (M - 1)
          exact daysInMonth_pos _ _
        · show daysInMonth Y (M - 1) ≤ daysInMonth Y (M - 1)
          exact le_refl _
    · split at hP
      · next hyear =>
        cases hP
        have hm1e : M = 1 := by omega
        have hd1e : D = 1 := by omega
        subst hm1e
        subst hd1e
        have hstep : daysBeforeYear (Y - 1 + 1) =
            daysBeforeYear (Y - 1) + daysInYear (Y - 1) := rfl
        have hyy : Y - 1 + 1 = Y := by omega
        rw [hyy] at hstep
        have h12 := daysBeforeMonth_12 (Y - 1)
        have hdim : daysInMonth (Y - 1) 12 = 31 := rfl
        have hbm1 : daysBeforeMonth Y 1 = 0 := rfl
        constructor
        · show daysBeforeYear (Y - 1) + daysBeforeMonth (Y - 1) 12 + 31 + 1 =
            daysBeforeYear Y + daysBeforeMonth Y 1 + 1
          omega
        · rw [validDate_iff]
          refine ⟨?_, ?_, ?_, ?_, ?_, ?_⟩
          · show 1 ≤ Y - 1
            omega
          · show Y - 1 ≤ 9999
            omega
          · show (1 : Nat) ≤ 12
            omega
          · show (12 : Nat) ≤ 12
            omega
          · show (1 : Nat) ≤ 31
            omega
          · show (31 : Nat) ≤ daysInMonth (Y - 1) 12
            omega
      · cases hP

theorem dateOrd_succ (dt : Date) (hv : validDate dt = true) (S : Date)
    (hS : succDay dt = some S) : dateOrd S = dateOrd dt + 1 ∧ validDate S = true := by
  rcases dt with ⟨Y, M, D⟩
  obtain ⟨hy1, hy2, hm1, hm2, hd1, hd2⟩ := (validDate_iff ⟨Y, M, D⟩).mp hv
  dsimp only at hy1 hy2 hm1 hm2 hd1 hd2
  unfold succDay at hS
  dsimp only at hS
  split at hS
  · next hday =>
    cases hS
    constructor
    · show daysBeforeYear Y + daysBeforeMonth Y M + (D + 1) =
        daysBeforeYear Y + daysBeforeMonth Y M + D + 1
      omega
    · rw [validDate_iff]
      refine ⟨hy1, hy2, hm1, hm2, ?_, ?_⟩
      · show 1 ≤ D + 1
        omega
      · show D + 1 ≤ daysInMonth Y M
        omega
  · next hday =>
    split at hS
    · next hmon =>
      cases hS
      have hstep : daysBeforeMonth Y (M + 1) =
          daysBeforeMonth Y M + daysInMonth Y M :=
        daysBeforeMonth_succ Y M hm1
      constructor
      · show daysBeforeYear Y + daysBeforeMonth Y (M + 1) + 1 =
          daysBeforeYear Y + daysBeforeMonth Y M + D + 1
        omega
      · rw [validDate_iff]
        refine ⟨hy1, hy2, ?_, ?_, ?_, ?_⟩
        · show 1 ≤ M + 1
          omega
        · show M + 1 ≤ 12
          omega
        · show (1 : Nat) ≤ 1
          omega
        · show (1 : Nat) ≤ daysInMonth Y (M + 1)
          exact daysInMonth_pos _ _
    · split at hS
      · next hyear =>
        cases hS
        have hm12 : M = 12 := by omega
        subst hm12
        have hdim : daysInMonth Y 12 = 31 := rfl
        have hde : D = 31 := by omega
        subst hde
        have hstep : daysBeforeYear (Y + 1) =
            daysBeforeYear Y + daysInYear Y := rfl
        have h12 := daysBeforeMonth_12 Y
        have hbm1 : daysBeforeMonth (Y + 1) 1 = 0 := rfl
        constructor
        · show daysBeforeYear (Y + 1) + daysBeforeMonth (Y + 1) 1 + 1 =
            daysBeforeYear Y + daysBeforeMonth Y 12 + 31 + 1
          omega
        · rw [validDate_iff]
          refine ⟨?_, ?_, ?_, ?_, ?_, ?_⟩
          · show 1 ≤ Y + 1
            omega
          · show Y + 1 ≤ 9999
            omega
          · show (1 : Nat) ≤ 1
            omega
          · show (1 : Nat) ≤ 12
            omega
          · show (1 : Nat) ≤ 1
            omega
          · show (1 : Nat) ≤ daysInMonth (Y + 1) 1
            exact daysInMonth_pos _ _
      · cases hS

theorem newsRun_head (o : NewsParams → HttpOutcome NewsApiBody) (p : NewsParams)
    (topic date : String) : ((newsRun o p topic date).2).head? = some p := by
  unfold newsRun
  cases ho : o p with
  | exception e => rfl
  | response s body =>
    dsimp only
    by_cases hs : s = 200
    · rw [if_pos hs]
      cases body with
      | error e => rfl
      | ok data => rfl
    · rw [if_neg hs]
      cases body with
      | error e => rfl
      | ok data => rfl

theorem gnewsRun_head (o : GNewsParams → HttpOutcome GNewsBody) (p : GNewsParams)
    (topic date : String) : ((gnewsRun o p topic date).2).head? = some p := by
  unfold gnewsRun
  cases ho : o p with
  | exception e => rfl
  | response s body =>
    dsimp only
    by_cases hs : s = 200
    · rw [if_pos hs]
      cases body with
      | error e => rfl
      | ok data => rfl
    · rw [if_neg hs]
      rfl

/-! ### Claim C3 -/

/-- C3 amended: for every well formed YYYY-MM-DD date, with or without a
    trailing time component, other than the two boundary dates 0001-01-01
    and 9999-12-31, both variants attach an inclusive window of exactly one
    calendar day on either side to the primary request: the bounds are the
    calendar predecessor and successor of the parsed date, as certified by
    the linear day numbering.  At the two boundary dates the window
    arithmetic overflows instead and no request is issued. -/
theorem window_is_pred_succ (y m d : Nat) (hv : validDate ⟨y, m, d⟩ = true)
    (hmin : ¬(y = 1 ∧ m = 1 ∧ d = 1)) (hmax : ¬(y = 9999 ∧ m = 12 ∧ d = 31))
    (suffix : List Char) (hs : suffix = [] ∨ ∃ r, suffix = 'T' :: r)
    (k topic : String) (hk : k ≠ "")
    (oN : NewsParams → HttpOutcome NewsApiBody)
    (oG : GNewsParams → HttpOutcome GNewsBody) :
    ∃ P S, predDay ⟨y, m, d⟩ = some P ∧ succDay ⟨y, m, d⟩ = some S ∧
      dateOrd P + 1 = dateOrd ⟨y, m, d⟩ ∧ dateOrd S = dateOrd ⟨y, m, d⟩ + 1 ∧
      validDate P = true ∧ validDate S = true ∧
      computeDateFilter ⟨formatChars ⟨y, m, d⟩ ++ suffix⟩ = .window P S ∧
      (newsParamsFor k ⟨formatChars ⟨y, m, d⟩ ++ suffix⟩ topic).dateFrom = some P ∧
      (newsParamsFor k ⟨formatChars ⟨y, m, d⟩ ++ suffix⟩ topic).dateTo = some S ∧
      (searchNewsAPI (some k) oN ⟨formatChars ⟨y, m, d⟩ ++ suffix⟩ topic).2.head? =
        some (newsParamsFor k ⟨formatChars ⟨y, m, d⟩ ++ suffix⟩ topic) ∧
      (gnewsParamsFor k ⟨formatChars ⟨y, m, d⟩ ++ suffix⟩ topic).dateFrom = some P ∧
      (gnewsParamsFor k ⟨formatChars ⟨y, m, d⟩ ++ suffix⟩ topic).dateTo = some S ∧
      (searchGNews (some k) oG ⟨formatChars ⟨y, m, d⟩ ++ suffix⟩ topic).2.head? =
        some (gnewsParamsFor k ⟨formatChars ⟨y, m, d⟩ ++ suffix⟩ topic) := by
  obtain ⟨P, hP⟩ := predDay_some ⟨y, m, d⟩ hv hmin
  obtain ⟨S, hS⟩ := succDay_some ⟨y, m, d⟩ hv hmax
  have hfil : computeDateFilter ⟨formatChars ⟨y, m, d⟩ ++ suffix⟩ = .window P S := by
    unfold computeDateFilter
    rw [show (String.mk (formatChars ⟨y, m, d⟩ ++ suffix)).toList =
      formatChars ⟨y, m, d⟩ ++ suffix from rfl]
    rw [dateFilterOfChars_format y m d hv suffix hs, hP, hS]
  have hordP := dateOrd_pred ⟨y, m, d⟩ hv P hP
  have hordS := dateOrd_succ ⟨y, m, d⟩ hv S hS
  have hparN : newsParamsFor k ⟨formatChars ⟨y, m, d⟩ ++ suffix⟩ topic =
      { baseNewsParams k topic with dateFrom := some P, dateTo := some S } := by
    unfold newsParamsFor
    rw [hfil]
    rfl
  have hparG : gnewsParamsFor k ⟨formatChars ⟨y, m, d⟩ ++ suffix⟩ topic =
      { baseGNewsParams k topic with dateFrom := some P, dateTo := some S } := by
    unfold gnewsParamsFor
    rw [hfil]
    rfl
  have hrange : (computeDateFilter ⟨formatChars ⟨y, m, d⟩ ++ suffix⟩).isRangeErr = false := by
    rw [hfil]
    rfl
  refine ⟨P, S, hP, hS, hordP.1, hordS.1, hordP.2, hordS.2, hfil, ?_, ?_, ?_, ?_, ?_, ?_⟩
  · rw [hparN]
  · rw [hparN]
  · rw [searchNewsAPI_run k hk oN _ topic hrange]
    exact newsRun_head oN _ topic _
  · rw [hparG]
  · rw [hparG]
  · rw [searchGNews_run k hk oG _ topic hrange]
    exact gnewsRun_head oG _ topic _

/-- Witness for window_is_pred_succ at the concrete date 2024-03-01. -/
theorem window_is_pred_succ_witness :
    ∃ P S, predDay ⟨2024, 3, 1⟩ = some P ∧ succDay ⟨2024, 3, 1⟩ = some S ∧
      dateOrd P + 1 = dateOrd ⟨2024, 3, 1⟩ ∧ dateOrd S = dateOrd ⟨2024, 3, 1⟩ + 1 ∧
      validDate P = true ∧ validDate S = true ∧
      computeDateFilter ⟨formatChars ⟨2024, 3, 1⟩ ++ []⟩ = .window P S ∧
      (newsParamsFor "k" ⟨formatChars ⟨2024, 3, 1⟩ ++ []⟩ "ai").dateFrom = some P ∧
      (newsParamsFor "k" ⟨formatChars ⟨2024, 3, 1⟩ ++ []⟩ "ai").dateTo = some S ∧
      (searchNewsAPI (some "k") (oracleConst bodyOkOne) ⟨formatChars ⟨2024, 3, 1⟩ ++ []⟩ "ai").2.head? =
        some (newsParamsFor "k" ⟨formatChars ⟨2024, 3, 1⟩ ++ []⟩ "ai") ∧
      (gnewsParamsFor "k" ⟨formatChars ⟨2024, 3, 1⟩ ++ []⟩ "ai").dateFrom = some P ∧
      (gnewsParamsFor "k" ⟨formatChars ⟨2024, 3, 1⟩ ++ []⟩ "ai").dateTo = some S ∧
      (searchGNews (some "k") (goracleConst gbodyOne) ⟨formatChars ⟨2024, 3, 1⟩ ++ []⟩ "ai").2.head? =
        some (gnewsParamsFor "k" ⟨formatChars ⟨2024, 3, 1⟩ ++ []⟩ "ai") :=
  window_is_pred_succ 2024 3 1 (by decide) (by decide) (by decide) [] (Or.inl rfl)
    "k" "ai" (by decide) (oracleConst bodyOkOne) (goracleConst gbodyOne)

/-- C3 counterexample: 0001-01-01 is a well formed YYYY-MM-DD date that
    parses successfully, yet the call fails with the uncaught OverflowError
    text of the window arithmetic and issues no request at all, so no
    search request carries the claimed window. -/
theorem window_min_date_overflow :
    parseYMD ("0001-01-01".toList) = some ⟨1, 1, 1⟩ ∧
    computeDateFilter "0001-01-01" = .rangeError "date value out of range" ∧
    searchNewsAPI (some "k") (oracleConst bodyOkOne) "0001-01-01" "ai" =
      (.error "Error fetching news: date value out of range", []) ∧
    searchGNews (some "k") (goracleConst gbodyOne) "0001-01-01" "ai" =
      (.error "Error fetching news: date value out of range", []) := by decide

end Consensia
